import Mathlib

/-!
Verification of the search-telemetry and movie-fetch logic of the
Movies-website repository.

The development shallowly embeds the two source modules:

* `src/appwrite.js` — the search-telemetry store adapter
  (`updateSearchCount`, `getTrendingMovies`) over a remote document
  database, modelled here as an explicit list of documents plus a
  fresh-id counter;
* `src/App.jsx` — the `fetchMovies` adapter over the TMDB HTTP API,
  modelled as a state transformer on the relevant React state cells
  (`moviesList`, `errorMessage`, `isLoading`), with the possible
  transport outcomes made explicit and JavaScript exceptions embedded
  as `Except`.
-/

namespace MoviesSite

/-- A movie record as parsed from the TMDB `results` list.  Only the
fields the embedded logic reads (`id`, `title`, `poster_path`) are kept. -/
structure Movie where
  id : Nat
  title : String
  poster_path : String
deriving DecidableEq, Repr

/-- A document of the Appwrite collection tracking search counts.
`docId` models the store-assigned `$id`; the remaining fields are the
domain attributes written by `updateSearchCount`. -/
structure SearchDoc where
  docId : Nat
  searchTerm : String
  count : Nat
  movie_id : Nat
  poster_url : String
deriving DecidableEq, Repr

/-- The state of the remote document collection: the list of documents
(in insertion order, the store's natural order) and a counter supplying
the next fresh store-assigned id (`ID.unique()`). -/
structure Store where
  docs : List SearchDoc
  nextId : Nat
deriving DecidableEq, Repr

/-- A JavaScript error value (only its message is observable here). -/
structure DbError where
  message : String
deriving DecidableEq, Repr

/-- `database.listDocuments(DATABASE_ID, COLLECTION_ID,
[Query.equal('searchTerm', searchTerm)])`: the documents whose
`searchTerm` equals the given term, in store order. -/
def listDocumentsByTerm (s : Store) (t : String) : List SearchDoc :=
  s.docs.filter (fun d => d.searchTerm = t)

/-- `database.updateDocument(DATABASE_ID, COLLECTION_ID, id, { count: c })`:
a partial update that rewrites only the `count` field of the document
with the given store id, leaving every other document and field alone. -/
def updateDocument (s : Store) (id : Nat) (c : Nat) : Store :=
  { s with docs := s.docs.map (fun d => if d.docId = id then { d with count := c } else d) }

/-- The image-hosting URL template
`https://image.tmdb.org/t/p/w500${movie.poster_path}`. -/
def poster_url_of (p : String) : String :=
  "https://image.tmdb.org/t/p/w500" ++ p

/-- `database.createDocument(DATABASE_ID, COLLECTION_ID, ID.unique(), {...})`:
appends a fresh document carrying the term, `count: 1`, `movie_id:
movie.id` and the formatted `poster_url`. -/
def createDocument (s : Store) (t : String) (m : Movie) : Store :=
  { docs := s.docs ++ [{ docId := s.nextId
                       , searchTerm := t
                       , count := 1
                       , movie_id := m.id
                       , poster_url := poster_url_of m.poster_path }]
  , nextId := s.nextId + 1 }

/-- Which of the three store calls inside `updateSearchCount` fail in a
given run (the remote store may reject any of them). -/
structure FailSpec where
  listFails : Bool
  updateFails : Bool
  createFails : Bool
deriving DecidableEq, Repr

/-- The `try` block of `updateSearchCount(searchTerm, movie)`: look the
term up; if a document is found, increment its `count` by one via a
partial update keyed by its `$id`; otherwise create a fresh document.
A failing store call raises (returns `Except.error`) and, because the
lookup is read-only and the raise precedes the write, leaves the store
unchanged. -/
def updateSearchCountTry (f : FailSpec) (t : String) (m : Movie) (s : Store) :
    Store × Except DbError Unit :=
  if f.listFails then
    (s, Except.error ⟨"listDocuments failed"⟩)
  else
    match listDocumentsByTerm s t with
    | doc :: _ =>
        if f.updateFails then
          (s, Except.error ⟨"updateDocument failed"⟩)
        else
          (updateDocument s doc.docId (doc.count + 1), Except.ok ())
    | [] =>
        if f.createFails then
          (s, Except.error ⟨"createDocument failed"⟩)
        else
          (createDocument s t m, Except.ok ())

/-- The whole of `updateSearchCount`: the `try` block wrapped in the
`catch (error) { console.log(error) }` handler.  The result triple is
the store, the list of messages logged to the console, and the outcome
the caller observes. -/
def updateSearchCountRun (f : FailSpec) (t : String) (m : Movie) (s : Store) :
    Store × List DbError × Except DbError Unit :=
  match updateSearchCountTry f t m s with
  | (s2, Except.ok ()) => (s2, [], Except.ok ())
  | (s2, Except.error e) => (s2, [e], Except.ok ())

/-- The failure-free run of `updateSearchCount`, as a pure store
transformer: the semantics all functional-correctness claims are about. -/
def updateSearchCount (t : String) (m : Movie) (s : Store) : Store :=
  (updateSearchCountTry ⟨false, false, false⟩ t m s).1

/-- Ordering used by `Query.orderDesc('count')`: larger counts first. -/
def countGE (a b : SearchDoc) : Prop := b.count ≤ a.count

instance : DecidableRel countGE := fun a b => Nat.decLe b.count a.count

instance : IsTotal SearchDoc countGE := ⟨fun a b => Nat.le_total b.count a.count⟩

instance : IsTrans SearchDoc countGE := ⟨fun _ _ _ h1 h2 => Nat.le_trans h2 h1⟩

/-- `getTrendingMovies()` success path:
`database.listDocuments(DATABASE_ID, COLLECTION_ID, [Query.limit(5),
Query.orderDesc('count')])` — the documents ordered by `count`
descending, truncated to the first five — followed by
`return result.documents`. -/
def getTrendingMovies (s : Store) : List SearchDoc :=
  (List.insertionSort countGE s.docs).take 5

/-- The whole of `getTrendingMovies` with its `catch (error)
{ console.error(error) }` handler: on a store failure the error is
logged and the function falls off the end, returning `undefined`
(`none`); on success it returns the document list (`some`). -/
def getTrendingMoviesRun (fails : Bool) (s : Store) :
    Option (List SearchDoc) × List DbError :=
  if fails then (none, [⟨"listDocuments failed"⟩])
  else (some (getTrendingMovies s), [])

/-- Unfolded form of the failure-free `updateSearchCount`. -/
theorem updateSearchCount_def (t : String) (m : Movie) (s : Store) :
    updateSearchCount t m s =
      match listDocumentsByTerm s t with
      | doc :: _ => updateDocument s doc.docId (doc.count + 1)
      | [] => createDocument s t m := by
  unfold updateSearchCount updateSearchCountTry
  cases listDocumentsByTerm s t with
  | nil => rfl
  | cons d rest => rfl

/-- The store states reachable in practice: store-assigned ids are
pairwise distinct and the fresh-id counter dominates every assigned id. -/
def WellFormed (s : Store) : Prop :=
  (s.docs.map (fun d => d.docId)).Nodup ∧ ∀ d ∈ s.docs, d.docId < s.nextId

/-- The invariant of §3 of the design: at most one document exists per
distinct `searchTerm` value. -/
def Invariant (s : Store) : Prop :=
  ∀ t : String, (listDocumentsByTerm s t).length ≤ 1

/-- Filtering by term commutes with mapping a term-preserving rewrite
over the documents. -/
theorem filter_map_preserve {f : SearchDoc → SearchDoc}
    (hf : ∀ x, (f x).searchTerm = x.searchTerm) (l : List SearchDoc) (t : String) :
    (l.map f).filter (fun d => d.searchTerm = t)
      = (l.filter (fun d => d.searchTerm = t)).map f := by
  induction l with
  | nil => rfl
  | cons a l ih =>
      simp only [List.map_cons, List.filter_cons, hf a]
      by_cases hx : a.searchTerm = t
      · simp [hx, ih]
      · simp [hx, ih]

/-- With pairwise-distinct ids, the head of a term lookup has an id
shared by no later document of the same lookup. -/
theorem head_id_not_in_rest {s : Store} {t : String} {d : SearchDoc}
    {rest : List SearchDoc}
    (hnd : (s.docs.map (fun x => x.docId)).Nodup)
    (h : listDocumentsByTerm s t = d :: rest) :
    ∀ x ∈ rest, x.docId ≠ d.docId := by
  have hsub : (d :: rest).Sublist s.docs := by
    rw [← h]
    exact List.filter_sublist s.docs
  have hnd2 : ((d :: rest).map (fun x => x.docId)).Nodup :=
    (hsub.map (fun x => x.docId)).nodup hnd
  simp only [List.map_cons, List.nodup_cons, List.mem_map] at hnd2
  intro x hx he
  exact hnd2.1 ⟨x, hx, he⟩

/-- Effect of the found branch of `updateSearchCount` on the lookup for
the incremented term: the head document's count rises by one and the
rest of the lookup result is untouched. -/
theorem listDocumentsByTerm_update {t : String} {m : Movie} {s : Store}
    {d : SearchDoc} {rest : List SearchDoc}
    (hnd : (s.docs.map (fun x => x.docId)).Nodup)
    (h : listDocumentsByTerm s t = d :: rest) :
    listDocumentsByTerm (updateSearchCount t m s) t
      = { d with count := d.count + 1 } :: rest := by
  have hs : updateSearchCount t m s = updateDocument s d.docId (d.count + 1) := by
    rw [updateSearchCount_def, h]
  rw [hs]
  show (s.docs.map fun x =>
      if x.docId = d.docId then { x with count := d.count + 1 } else x).filter
      (fun x => x.searchTerm = t) = _
  rw [filter_map_preserve (fun x => by by_cases hx : x.docId = d.docId <;> simp [hx])]
  have h0 : s.docs.filter (fun x => x.searchTerm = t) = d :: rest := h
  rw [h0, List.map_cons, if_pos rfl]
  congr 1
  have hne := head_id_not_in_rest hnd h
  calc rest.map (fun x =>
          if x.docId = d.docId then { x with count := d.count + 1 } else x)
      = rest.map (fun x => x) :=
        List.map_congr_left (fun x hx => by simp [hne x hx])
    _ = rest := List.map_id rest

/-- The found branch, as an equation on stores. -/
theorem updateSearchCount_eq_update {t : String} {m : Movie} {s : Store}
    {d : SearchDoc} {rest : List SearchDoc}
    (h : listDocumentsByTerm s t = d :: rest) :
    updateSearchCount t m s = updateDocument s d.docId (d.count + 1) := by
  rw [updateSearchCount_def, h]

/-- The not-found branch, as an equation on stores. -/
theorem updateSearchCount_eq_create {t : String} {m : Movie} {s : Store}
    (h : listDocumentsByTerm s t = []) :
    updateSearchCount t m s = createDocument s t m := by
  rw [updateSearchCount_def, h]

/-- Effect of `createDocument` on lookups: the lookup for the created
term gains the fresh document at the end, every other lookup is
untouched. -/
theorem listDocumentsByTerm_create (s : Store) (t u : String) (m : Movie) :
    listDocumentsByTerm (createDocument s t m) u
      = listDocumentsByTerm s u ++
          (if u = t
           then [{ docId := s.nextId, searchTerm := t, count := 1,
                   movie_id := m.id, poster_url := poster_url_of m.poster_path }]
           else []) := by
  show (s.docs ++ [_]).filter (fun d : SearchDoc => d.searchTerm = u) = _
  rw [List.filter_append]
  congr 1
  by_cases hu : u = t
  · subst hu
    simp [List.filter_singleton]
  · have htu : ¬t = u := fun he => hu he.symm
    simp [List.filter_singleton, hu, htu]

/-- A partial `count`-only update changes no lookup length. -/
theorem length_lookup_update (s : Store) (id c : Nat) (u : String) :
    (listDocumentsByTerm (updateDocument s id c) u).length
      = (listDocumentsByTerm s u).length := by
  show ((s.docs.map _).filter _).length = _
  rw [filter_map_preserve (fun x => by by_cases hx : x.docId = id <;> simp [hx])]
  exact List.length_map _ _

/-- One failure-free `updateSearchCount` call preserves the
one-document-per-term invariant. -/
theorem invariant_step (t : String) (m : Movie) (s : Store) (h : Invariant s) :
    Invariant (updateSearchCount t m s) := by
  intro u
  cases hl : listDocumentsByTerm s t with
  | cons d rest =>
      rw [updateSearchCount_eq_update hl, length_lookup_update]
      exact h u
  | nil =>
      rw [updateSearchCount_eq_create hl, listDocumentsByTerm_create]
      by_cases hu : u = t
      · subst hu
        simp [hl]
      · simp [hu]
        exact h u

/-- `createDocument` keeps the store well formed: the fresh id is larger
than every assigned id, so distinctness survives the append. -/
theorem wellFormed_create (s : Store) (t : String) (m : Movie)
    (hwf : WellFormed s) : WellFormed (createDocument s t m) := by
  constructor
  · show (List.map _ (s.docs ++ [_])).Nodup
    rw [List.map_append]
    refine List.Nodup.append hwf.1 (List.nodup_singleton _) ?_
    intro a ha hb
    simp only [List.map_cons, List.map_nil, List.mem_singleton] at hb
    obtain ⟨d, hd, hda⟩ := List.mem_map.mp ha
    exact absurd (hb ▸ hda) (Nat.ne_of_lt (hwf.2 d hd))
  · intro d hd
    rcases List.mem_append.mp hd with hd | hd
    · exact Nat.lt_succ_of_lt (hwf.2 d hd)
    · simp only [List.mem_singleton] at hd
      rw [hd]
      exact Nat.lt_succ_self _

/-- Claim C1: on a well-formed store with no record for term `t`,
`updateSearchCount t m` creates exactly one record for `t` with
`count = 1`, `movie_id = m.id` and `poster_url` formed by inserting
`m.poster_path` into the template
`https://image.tmdb.org/t/p/w500{path}`; a second sequential call for
the same term finds that record and increments its count by exactly 1,
leaving exactly one record for `t` with `count = 2`. -/
theorem claim_C1 (t : String) (m : Movie) (s : Store)
    (hwf : WellFormed s) (h : listDocumentsByTerm s t = []) :
    listDocumentsByTerm (updateSearchCount t m s) t
      = [{ docId := s.nextId, searchTerm := t, count := 1, movie_id := m.id,
           poster_url := poster_url_of m.poster_path }] ∧
    listDocumentsByTerm (updateSearchCount t m (updateSearchCount t m s)) t
      = [{ docId := s.nextId, searchTerm := t, count := 2, movie_id := m.id,
           poster_url := poster_url_of m.poster_path }] := by
  have h1 : updateSearchCount t m s = createDocument s t m :=
    updateSearchCount_eq_create h
  have hfil : listDocumentsByTerm (createDocument s t m) t
      = [{ docId := s.nextId, searchTerm := t, count := 1, movie_id := m.id,
           poster_url := poster_url_of m.poster_path }] := by
    rw [listDocumentsByTerm_create, h]
    simp
  refine ⟨h1 ▸ hfil, ?_⟩
  rw [h1]
  have hnd : ((createDocument s t m).docs.map (fun x => x.docId)).Nodup :=
    (wellFormed_create s t m hwf).1
  simpa using listDocumentsByTerm_update (m := m) hnd hfil

/-- Sample movie used by the concrete instantiations below. -/
def m0 : Movie := { id := 42, title := "Dune", poster_path := "/dune.jpg" }

/-- The empty store. -/
def s0 : Store := { docs := [], nextId := 0 }

theorem claim_C1_witness :
    listDocumentsByTerm (updateSearchCount "dune" m0 s0) "dune"
      = [{ docId := 0, searchTerm := "dune", count := 1, movie_id := 42,
           poster_url := poster_url_of "/dune.jpg" }] ∧
    listDocumentsByTerm (updateSearchCount "dune" m0 (updateSearchCount "dune" m0 s0)) "dune"
      = [{ docId := 0, searchTerm := "dune", count := 2, movie_id := 42,
           poster_url := poster_url_of "/dune.jpg" }] :=
  claim_C1 "dune" m0 s0
    ⟨List.nodup_nil, fun d hd => absurd hd (List.not_mem_nil d)⟩ rfl

/-- Claim C2: under sequential execution, any sequence of
`updateSearchCount` calls starting from a store satisfying the
at-most-one-record-per-term invariant leaves the invariant intact. -/
theorem claim_C2 (ops : List (String × Movie)) (s : Store) (h : Invariant s) :
    Invariant (ops.foldl (fun acc p => updateSearchCount p.1 p.2 acc) s) := by
  induction ops generalizing s with
  | nil => exact h
  | cons p ops ih => exact ih _ (invariant_step p.1 p.2 s h)

theorem claim_C2_witness :
    Invariant (List.foldl (fun acc p => updateSearchCount p.1 p.2 acc) s0
      [("dune", m0), ("dune", m0), ("tron", m0)]) :=
  claim_C2 [("dune", m0), ("dune", m0), ("tron", m0)] s0
    (fun _ => by simp [listDocumentsByTerm, s0])

/-- The fields of a document other than `count`. -/
def nonCountFields (d : SearchDoc) : Nat × String × Nat × String :=
  (d.docId, d.searchTerm, d.movie_id, d.poster_url)

/-- Claim C9: when `updateSearchCount` finds an existing record, it
rewrites only the `count` field — for every document of the store the
id, term, movie id and poster URL are unchanged — and the documents
carrying the found id get count `d.count + 1`, every other document an
unchanged count. -/
theorem claim_C9 (t : String) (m : Movie) (s : Store)
    (d : SearchDoc) (rest : List SearchDoc)
    (h : listDocumentsByTerm s t = d :: rest) :
    ((updateSearchCount t m s).docs.map nonCountFields
      = s.docs.map nonCountFields) ∧
    ((updateSearchCount t m s).docs.map (fun x => x.count)
      = s.docs.map (fun x => if x.docId = d.docId then d.count + 1 else x.count)) := by
  rw [updateSearchCount_eq_update h]
  constructor
  · show (s.docs.map _).map nonCountFields = _
    rw [List.map_map]
    exact List.map_congr_left (fun x _ => by
      by_cases hid : x.docId = d.docId <;> simp [hid, nonCountFields])
  · show (s.docs.map _).map (fun x : SearchDoc => x.count) = _
    rw [List.map_map]
    exact List.map_congr_left (fun x _ => by
      by_cases hid : x.docId = d.docId <;> simp [hid])

/-- A one-document store used to instantiate the found branch. -/
def s1 : Store :=
  { docs := [{ docId := 0, searchTerm := "dune", count := 3, movie_id := 42,
               poster_url := "u" }]
  , nextId := 1 }

theorem claim_C9_witness :
    ((updateSearchCount "dune" m0 s1).docs.map nonCountFields
      = s1.docs.map nonCountFields) ∧
    ((updateSearchCount "dune" m0 s1).docs.map (fun x => x.count)
      = s1.docs.map (fun x => if x.docId = 0 then 3 + 1 else x.count)) :=
  claim_C9 "dune" m0 s1
    { docId := 0, searchTerm := "dune", count := 3, movie_id := 42, poster_url := "u" }
    [] (by decide)

/-- The store of the design's worked example: six documents whose
counts are, in store order, 3, 1, 5, 2, 4 and 0. -/
def exampleStore : Store :=
  { docs :=
      [ { docId := 0, searchTerm := "a", count := 3, movie_id := 10, poster_url := "pa" }
      , { docId := 1, searchTerm := "b", count := 1, movie_id := 11, poster_url := "pb" }
      , { docId := 2, searchTerm := "c", count := 5, movie_id := 12, poster_url := "pc" }
      , { docId := 3, searchTerm := "d", count := 2, movie_id := 13, poster_url := "pd" }
      , { docId := 4, searchTerm := "e", count := 4, movie_id := 14, poster_url := "pe" }
      , { docId := 5, searchTerm := "f", count := 0, movie_id := 15, poster_url := "pf" } ]
  , nextId := 6 }

/-- Claim C3: `getTrendingMovies` returns at most 5 documents, sorted
by `count` descending, and on the store whose counts are
[3, 1, 5, 2, 4, 0] it returns the five records with counts
5, 4, 3, 2, 1 in that order. -/
theorem claim_C3 :
    (∀ s : Store, (getTrendingMovies s).length ≤ 5) ∧
    (∀ s : Store, (getTrendingMovies s).Pairwise countGE) ∧
    (getTrendingMovies exampleStore).map (fun d => d.count) = [5, 4, 3, 2, 1] := by
  refine ⟨?_, ?_, by decide⟩
  · intro s
    show ((List.insertionSort countGE s.docs).take 5).length ≤ 5
    rw [List.length_take]
    exact Nat.min_le_left _ _
  · intro s
    exact List.Pairwise.sublist (List.take_sublist 5 _)
      (List.sorted_insertionSort countGE s.docs)

/-- Claim C4: whichever of the three store calls inside
`updateSearchCount` fails — the lookup, the update or the create — the
error is swallowed by the catch handler and only written to the
console log; the caller always observes a successful resolution. -/
theorem claim_C4 (f : FailSpec) (t : String) (m : Movie) (s : Store) :
    (updateSearchCountRun f t m s).2.2 = Except.ok () ∧
    (updateSearchCountRun { listFails := true, updateFails := false, createFails := false }
        t m s).2.1 = [{ message := "listDocuments failed" }] ∧
    (updateSearchCountRun { listFails := false, updateFails := true, createFails := true }
        t m s).2.1.length = 1 := by
  refine ⟨?_, ?_, ?_⟩
  · cases hr : updateSearchCountTry f t m s with
    | mk s2 r =>
        cases r with
        | ok v =>
            cases v
            simp [updateSearchCountRun, hr]
        | error e => simp [updateSearchCountRun, hr]
  · simp [updateSearchCountRun, updateSearchCountTry]
  · cases hl : listDocumentsByTerm s t with
    | nil => simp [updateSearchCountRun, updateSearchCountTry, hl]
    | cons d rest => simp [updateSearchCountRun, updateSearchCountTry, hl]

/-- Claim C5: when the store read inside `getTrendingMovies` fails, the
function logs the error and returns `undefined` (`none`), a value
distinct from the `some []` a successful call returns on a store with
no trending records. -/
theorem claim_C5 (s : Store) :
    (getTrendingMoviesRun true s).1 = none ∧
    (getTrendingMoviesRun true s).2 = [{ message := "listDocuments failed" }] ∧
    (getTrendingMoviesRun false s0).1 = some [] ∧
    (getTrendingMoviesRun true s).1 ≠ (getTrendingMoviesRun false s0).1 :=
  ⟨rfl, rfl, rfl, fun h => Option.noConfusion h⟩

/-! The `fetchMovies` adapter of `src/App.jsx`. -/

/-- UTF-8 encoding of a Unicode code point, as byte values.  Code
points outside the Unicode range (which no `Char` carries) yield no
bytes. -/
def utf8Bytes (n : Nat) : List Nat :=
  if n < 128 then [n]
  else if n < 2048 then [192 + n / 64, 128 + n % 64]
  else if n < 65536 then [224 + n / 4096, 128 + n / 64 % 64, 128 + n % 64]
  else if n < 1114112 then
    [240 + n / 262144, 128 + n / 4096 % 64, 128 + n / 64 % 64, 128 + n % 64]
  else []

/-- Uppercase hexadecimal digit for a value below 16. -/
def hexDigit (n : Nat) : Char :=
  if n < 10 then Char.ofNat (48 + n) else Char.ofNat (55 + n)

/-- A percent escape `%XY` for one byte. -/
def percentHex (b : Nat) : List Char :=
  ['%', hexDigit (b / 16), hexDigit (b % 16)]

/-- The mark characters ECMAScript `encodeURI` leaves unescaped. -/
def uriMarks : List Char := ['-', '_', '.', '!', '~', '*', Char.ofNat 39, '(', ')']

/-- The reserved characters, plus `#`, that ECMAScript `encodeURI`
leaves unescaped. -/
def uriReservedHash : List Char :=
  [';', '/', '?', ':', '@', '&', '=', '+', '$', ',', '#']

/-- Whether `encodeURI` passes the character through unescaped. -/
def encodeURIAllowed (c : Char) : Bool :=
  c.isAlpha || c.isDigit || uriMarks.contains c || uriReservedHash.contains c

/-- `encodeURI` on one character: kept verbatim when allowed, otherwise
replaced by the percent escapes of its UTF-8 bytes. -/
def encodeURIChar (c : Char) : List Char :=
  if encodeURIAllowed c then [c] else ((utf8Bytes c.toNat).map percentHex).flatten

/-- Character-list version of ECMAScript `encodeURI`. -/
def encodeURIChars : List Char → List Char
  | [] => []
  | c :: cs => encodeURIChar c ++ encodeURIChars cs

/-- ECMAScript `encodeURI`, the function `fetchMovies` applies to the
search query. -/
def encodeURI (s : String) : String := String.mk (encodeURIChars s.data)

/-- `const API_BASE_URL = 'https://api.themoviedb.org/3'`. -/
def API_BASE_URL : String := "https://api.themoviedb.org/3"

/-- The endpoint `fetchMovies` requests: the ternary on the truthiness
of `query` choosing the search endpoint (with `encodeURI(query)`
interpolated) for a non-empty query and the discover endpoint
otherwise. -/
def fetchEndpoint (query : String) : String :=
  if query = "" then API_BASE_URL ++ "/discover/movie?sort_by=popularity.desc"
  else API_BASE_URL ++ "/search/movie?query=" ++ encodeURI query

/-- Modelled from the spec: "the query text percent-encoded" — the full
percent-encoding of a URL query component, which escapes every
character outside the RFC 3986 unreserved set (letters, digits, `-`,
`.`, `_`, `~`) as percent-prefixed UTF-8 bytes.  Declared only to be
compared with the `encodeURI` the source actually applies. -/
def specPercentEncodeChars : List Char → List Char
  | [] => []
  | c :: cs =>
      (if c.isAlpha || c.isDigit || ['-', '.', '_', '~'].contains c
       then [c] else ((utf8Bytes c.toNat).map percentHex).flatten)
        ++ specPercentEncodeChars cs

/-- Modelled from the spec: string version of `specPercentEncodeChars`. -/
def specPercentEncode (s : String) : String := String.mk (specPercentEncodeChars s.data)

/-- A JavaScript error value as observed through `catch`. -/
structure JsError where
  message : String
deriving DecidableEq, Repr

/-- The JSON body of a TMDB reply, restricted to the fields the code
reads: `data.response`, `data.Error` (called `errorMsg` here) and
`data.results`.  A missing field is `none`. -/
structure TmdbBody where
  response : Option String
  errorMsg : Option String
  results : Option (List Movie)
deriving DecidableEq, Repr

/-- An HTTP reply: the `response.ok` success flag and the body;
`body = none` models a body `response.json()` fails to parse. -/
structure HttpResponse where
  ok : Bool
  body : Option TmdbBody
deriving DecidableEq, Repr

/-- The outcome of the `fetch` call itself: either the promise rejects
(network failure) or an `HttpResponse` arrives. -/
inductive FetchOutcome where
  | reject (e : JsError)
  | response (r : HttpResponse)
deriving DecidableEq, Repr

/-- The React state cells `fetchMovies` touches. -/
structure AppState where
  moviesList : List Movie
  errorMessage : String
  isLoading : Bool
deriving DecidableEq, Repr

/-- JavaScript `a || b` on an optional string: the default is taken
when the field is missing or holds the falsy empty string. -/
def jsOr (o : Option String) (d : String) : String :=
  match o with
  | some s => if s = "" then d else s
  | none => d

/-- The `try` block of `fetchMovies(query)`, given the transport
outcome: sets the loading flag, clears the previous error, then walks
the response exactly as the source does.  `Except.error` marks a raised
JavaScript exception together with the state updates already applied
before the raise.  Note the guard `query && data.results.length > 0`:
when `query` is truthy it dereferences `data.results.length`, which
raises a `TypeError` when the body has no `results` field; when the
guard passes, the awaited `updateSearchCount` never rejects (see
`claim_C4`), so it adds no exception. -/
def fetchMoviesTry (query : String) (net : FetchOutcome) (st : AppState) :
    AppState × Except JsError Unit :=
  let st1 := { st with isLoading := true, errorMessage := "" }
  match net with
  | FetchOutcome.reject e => (st1, Except.error e)
  | FetchOutcome.response r =>
      if r.ok = false then
        (st1, Except.error { message := "Failed to fetch movies" })
      else
        match r.body with
        | none => (st1, Except.error { message := "SyntaxError: unexpected token" })
        | some data =>
            if data.response = some "False" then
              ({ st1 with errorMessage := jsOr data.errorMsg "Failed to fetch movies"
                        , moviesList := [] }, Except.ok ())
            else
              let st2 := { st1 with moviesList := data.results.getD [] }
              if query = "" then (st2, Except.ok ())
              else
                match data.results with
                | none =>
                    (st2, Except.error
                      { message := "TypeError: cannot read length of undefined" })
                | some _ => (st2, Except.ok ())

/-- The whole of `fetchMovies`: the `try` block, the `catch` handler
(log, then set the user-facing error message) and the `finally` clause
(clear the loading flag).  The function is total: no exception escapes
it. -/
def fetchMovies (query : String) (net : FetchOutcome) (st : AppState) : AppState :=
  match fetchMoviesTry query net st with
  | (st2, Except.ok _) => { st2 with isLoading := false }
  | (st2, Except.error _) =>
      { st2 with errorMessage := "Error fetching movies. Please try again later."
               , isLoading := false }

/-- Claim C6 as amended: endpoint choice depends only on whether the
query is empty — the empty query requests the popularity-sorted
discover endpoint, every non-empty query requests the search endpoint —
and the query is interpolated through `encodeURI`, which
percent-encodes characters outside the URI character set (spaces,
non-ASCII letters) but passes URI-reserved characters and `#` through
verbatim. -/
theorem claim_C6 (q : String) (hq : q ≠ "") :
    fetchEndpoint "" = API_BASE_URL ++ "/discover/movie?sort_by=popularity.desc" ∧
    fetchEndpoint q = API_BASE_URL ++ "/search/movie?query=" ++ encodeURI q ∧
    fetchEndpoint "dune" = "https://api.themoviedb.org/3/search/movie?query=dune" ∧
    encodeURI "dune movie" = "dune%20movie" ∧
    encodeURI "café" = "caf%C3%A9" := by
  refine ⟨by decide, ?_, by decide, by decide, by decide⟩
  rw [fetchEndpoint, if_neg hq]

theorem claim_C6_witness :
    fetchEndpoint "dune" = API_BASE_URL ++ "/search/movie?query=" ++ encodeURI "dune" :=
  (claim_C6 "dune" (by decide)).2.1

/-- Claim C6, counterexample to the claim as stated: for the query
`#` the URL carries the raw character — the URL built by the code is
not the search endpoint with the query text percent-encoded, since the
percent-encoding of `#` is `%23`. -/
theorem claim_C6_counterexample :
    fetchEndpoint "#" = "https://api.themoviedb.org/3/search/movie?query=#" ∧
    specPercentEncode "#" = "%23" ∧
    fetchEndpoint "#"
      ≠ API_BASE_URL ++ "/search/movie?query=" ++ specPercentEncode "#" := by
  refine ⟨by decide, by decide, by decide⟩

/-- A success body carrying none of the fields the code reads; in
particular it has no `results` list. -/
def bodyNoResults : TmdbBody := { response := none, errorMsg := none, results := none }

/-- A 2xx reply whose parsed body is `bodyNoResults`. -/
def respOkNoResults : HttpResponse := { ok := true, body := some bodyNoResults }

/-- An app state holding previously fetched movies. -/
def stPrior : AppState := { moviesList := [m0], errorMessage := "", isLoading := false }

/-- Claim C7, the failing input: on a success reply whose body lacks
`results`, the empty query completes successfully with the empty list
as the claim states, but any non-empty query dereferences
`data.results.length` on `undefined`, raising a `TypeError` that the
catch handler converts into an error state — contradicting both the
claim and the source comment announcing a fallback to the empty
array. -/
theorem claim_C7_bug :
    (fetchMoviesTry "dune" (FetchOutcome.response respOkNoResults) stPrior).2
      = Except.error { message := "TypeError: cannot read length of undefined" } ∧
    fetchMovies "dune" (FetchOutcome.response respOkNoResults) stPrior
      = { moviesList := []
        , errorMessage := "Error fetching movies. Please try again later."
        , isLoading := false } ∧
    fetchMovies "" (FetchOutcome.response respOkNoResults) stPrior
      = { moviesList := [], errorMessage := "", isLoading := false } ∧
    fetchMovies "dune"
        (FetchOutcome.response
          { ok := true, body := some { bodyNoResults with results := some [] } })
        stPrior
      = { moviesList := [], errorMessage := "", isLoading := false } :=
  ⟨rfl, rfl, rfl, rfl⟩

/-- Claim C8: a non-2xx transport reply makes the `try` block raise the
generic `Failed to fetch movies` error, which the handler turns into
the user-facing error state; `fetchMovies` itself completes normally,
with the previous movie list retained, so no exception escapes it. -/
theorem claim_C8 (q : String) (r : HttpResponse) (st : AppState)
    (h : r.ok = false) :
    (fetchMoviesTry q (FetchOutcome.response r) st).2
      = Except.error { message := "Failed to fetch movies" } ∧
    fetchMovies q (FetchOutcome.response r) st
      = { moviesList := st.moviesList
        , errorMessage := "Error fetching movies. Please try again later."
        , isLoading := false } := by
  have h1 : fetchMoviesTry q (FetchOutcome.response r) st
      = ({ st with isLoading := true, errorMessage := "" },
         Except.error { message := "Failed to fetch movies" }) := by
    simp [fetchMoviesTry, h]
  constructor
  · rw [h1]
  · rw [fetchMovies, h1]

theorem claim_C8_witness :
    (fetchMoviesTry "dune" (FetchOutcome.response { ok := false, body := none }) stPrior).2
      = Except.error { message := "Failed to fetch movies" } ∧
    fetchMovies "dune" (FetchOutcome.response { ok := false, body := none }) stPrior
      = { moviesList := stPrior.moviesList
        , errorMessage := "Error fetching movies. Please try again later."
        , isLoading := false } :=
  claim_C8 "dune" { ok := false, body := none } stPrior rfl

/-- The transport-level failures of claim C10: the fetch promise
rejects, the reply status is not a success, or the body is not valid
JSON. -/
def transportFails (net : FetchOutcome) : Prop :=
  match net with
  | FetchOutcome.reject _ => True
  | FetchOutcome.response r => r.ok = false ∨ r.body = none

/-- Claim C10: on any transport-level failure — rejected fetch, non-2xx
status or unparseable body — `fetchMovies` leaves the movie list
exactly as it was before the call, and only the error message and the
loading flag change. -/
theorem claim_C10 (q : String) (net : FetchOutcome) (st : AppState)
    (h : transportFails net) :
    (fetchMovies q net st).moviesList = st.moviesList ∧
    (fetchMovies q net st).errorMessage
      = "Error fetching movies. Please try again later." ∧
    (fetchMovies q net st).isLoading = false := by
  cases net with
  | reject e => simp [fetchMovies, fetchMoviesTry]
  | response r =>
      rcases h with h | h
      · simp [fetchMovies, fetchMoviesTry, h]
      · by_cases hok : r.ok = false
        · simp [fetchMovies, fetchMoviesTry, hok]
        · have hok2 : r.ok = true := by
            revert hok
            cases r.ok <;> simp
          simp [fetchMovies, fetchMoviesTry, hok2, h]

theorem claim_C10_witness :
    (fetchMovies "dune" (FetchOutcome.reject { message := "network down" }) stPrior).moviesList
      = stPrior.moviesList ∧
    (fetchMovies "dune" (FetchOutcome.reject { message := "network down" }) stPrior).errorMessage
      = "Error fetching movies. Please try again later." ∧
    (fetchMovies "dune" (FetchOutcome.reject { message := "network down" }) stPrior).isLoading
      = false :=
  claim_C10 "dune" (FetchOutcome.reject { message := "network down" }) stPrior trivial

end MoviesSite
